import Mathlib

/-!
Shallow embedding of the platform-adaptive visual styling core of the
repository: device capability detection (src/ui/platform/detection.js),
the navigation theme platform module (src/ui/navigation/theme/platform.js),
the visual property calculators (src/ui/platform/visualProperties.js) and
the navigation token assembly (src/ui/navigation/theme/tokens.js).

JavaScript numbers are modelled as rationals, except where the source
computes genuinely transcendental values (Math.pow with fractional
exponent, Math.log10), which are modelled in the reals.  The device
state read once at module load (window dimensions, pixel ratio,
Platform.OS, Platform.isPad, StatusBar.currentHeight) is gathered in an
explicit `Device` value and threaded through every function.
-/

/-- The value of `Platform.OS` in the hosting runtime.  The sources only
distinguish the primary OS (ios), the secondary OS (android), and
anything else. -/
inductive OS where
  | ios
  | android
  | other
  deriving DecidableEq, Repr

/-- Device state captured once at module load: cached window dimensions
(`Dimensions.get('window')`), `PixelRatio.get()`, `Platform.OS`,
`Platform.isPad`, and `StatusBar.currentHeight` (absent on iOS, hence an
`Option`). -/
structure Device where
  width : ℚ
  height : ℚ
  pixelRatio : ℚ
  os : OS
  isPad : Bool
  statusBarCurrentHeight : Option ℚ
  deriving DecidableEq, Repr

namespace Detection

/-- src/ui/platform/detection.js, `isIPhone12OrNewer` (lines 20-33):
false off iOS; false when the smaller window side is below 375; else
true iff the aspect ratio exceeds 2.1 in either direction and the window
height is at least 812. -/
def isIPhone12OrNewer (d : Device) : Bool :=
  if d.os ≠ OS.ios then false
  else if min d.width d.height < 375 then false
  else decide ((d.height / d.width > 2.1 ∨ d.width / d.height > 2.1) ∧ d.height ≥ 812)

/-- src/ui/platform/detection.js, `hasNotchOrDynamicIsland` (lines 38-44):
false off iOS; else true iff the window HEIGHT (not the longer
dimension) is at least 812 and the device is not an iPad. -/
def hasNotchOrDynamicIsland (d : Device) : Bool :=
  if d.os ≠ OS.ios then false
  else decide (d.height ≥ 812) && !d.isPad

/-- src/ui/platform/detection.js, `hasDynamicIsland` (lines 49-62):
false off iOS or on an iPad; else true iff the shorter window dimension
is exactly 393 or exactly 430 and `hasNotchOrDynamicIsland` holds. -/
def hasDynamicIsland (d : Device) : Bool :=
  if d.os ≠ OS.ios then false
  else if d.isPad then false
  else
    let portraitWidth := min d.width d.height
    (decide (portraitWidth = 393) || decide (portraitWidth = 430)) && hasNotchOrDynamicIsland d

/-- src/ui/platform/detection.js, `hasFaceID` (lines 67-77). -/
def hasFaceID (d : Device) : Bool :=
  if d.os ≠ OS.ios then false
  else if d.isPad then decide (max d.width d.height ≥ 1024)
  else hasNotchOrDynamicIsland d

/-- src/ui/platform/detection.js, `hasHomeIndicator` (lines 82-87). -/
def hasHomeIndicator (d : Device) : Bool :=
  if d.os ≠ OS.ios then false else hasFaceID d

/-- src/ui/platform/detection.js, `getStatusBarHeight` (lines 92-100):
on iOS, 24 for iPads, else 47 with a notch and 20 without; any other OS
gets the fixed 24. -/
def getStatusBarHeight (d : Device) : ℚ :=
  if d.os = OS.ios then
    if d.isPad then 24
    else if hasNotchOrDynamicIsland d then 47 else 20
  else 24

/-- src/ui/platform/detection.js, `getBottomInset` (lines 105-112). -/
def getBottomInset (d : Device) : ℚ :=
  if d.os = OS.ios then
    if hasHomeIndicator d then 34 else 0
  else 0

/-- src/ui/platform/detection.js, `getMaxBlurIntensity` (lines 149-164):
100 on iOS; on Android stepped by pixel ratio into 80/60/40/20; 40 for
any other OS. -/
def getMaxBlurIntensity (d : Device) : ℚ :=
  if d.os = OS.ios then 100
  else if d.os = OS.android then
    if d.pixelRatio ≥ 3 then 80
    else if d.pixelRatio ≥ 2.5 then 60
    else if d.pixelRatio ≥ 2 then 40
    else 20
  else 40

end Detection

namespace ThemePlatform

/-- src/ui/navigation/theme/platform.js, constant `IS_IPHONE_X_OR_NEWER`
(lines 15-17): iOS, not an iPad, and height OR width at least 812. -/
def isIPhoneXOrNewer (d : Device) : Bool :=
  decide (d.os = OS.ios) && !d.isPad && (decide (d.height ≥ 812) || decide (d.width ≥ 812))

/-- src/ui/navigation/theme/platform.js, `hasNotch` (lines 23-25).  On
Android `StatusBar.currentHeight > 24` is false when the height is
absent (undefined comparison), modelled by defaulting to 0. -/
def hasNotch (d : Device) : Bool :=
  isIPhoneXOrNewer d ||
    (decide (d.os = OS.android) && decide (d.statusBarCurrentHeight.getD 0 > 24))

/-- src/ui/navigation/theme/platform.js, `hasHomeIndicator` (lines 30-32). -/
def hasHomeIndicator (d : Device) : Bool :=
  isIPhoneXOrNewer d

/-- src/ui/navigation/theme/platform.js, `getStatusBarHeight` (lines
37-47): on iOS, 44 with a notch, 20 without (no iPad case); otherwise 0
when `skipAndroid`, else `StatusBar.currentHeight || 0`. -/
def getStatusBarHeight (d : Device) (skipAndroid : Bool) : ℚ :=
  if d.os = OS.ios then
    if hasNotch d then 44 else 20
  else if skipAndroid then 0
  else d.statusBarCurrentHeight.getD 0

/-- src/ui/navigation/theme/platform.js, `getBottomSpace` (lines 53-55). -/
def getBottomSpace (d : Device) : ℚ :=
  if hasHomeIndicator d then 34 else 0

/-- src/ui/navigation/theme/platform.js, `getTabBarHeight` (lines
60-66): the per-OS standard height (49 on iOS, 56 otherwise) plus the
bottom space. -/
def getTabBarHeight (d : Device) : ℚ :=
  (if d.os = OS.ios then 49 else 56) + getBottomSpace d

/-- src/ui/navigation/theme/platform.js, `getHeaderHeight` (lines 71-78). -/
def getHeaderHeight (d : Device) : ℚ :=
  getStatusBarHeight d false + (if d.os = OS.ios then 44 else 56)

end ThemePlatform

namespace Tokens

/-- The `platform.select` calls in src/ui/navigation/theme/tokens.js all
pass exactly an `ios` and an `android` numeric value (no `default`, no
`iosNotch`), so platform.js lines 84-98 reduce to: the ios value on iOS,
the android value on Android, and on any other OS the fallback
`config.default || config.android || config.ios` with JavaScript
falsiness on 0. -/
def select (d : Device) (iosV androidV : ℚ) : ℚ :=
  match d.os with
  | OS.ios => iosV
  | OS.android => androidV
  | OS.other => if androidV ≠ 0 then androidV else iosV

/-- src/ui/navigation/theme/tokens.js, `navigationTokens.spacing.header`
(lines 21-35), numeric fields. -/
structure HeaderSpacing where
  height : ℚ
  paddingHorizontal : ℚ
  statusBarHeight : ℚ
  elevation : ℚ
  deriving DecidableEq, Repr

/-- src/ui/navigation/theme/tokens.js, `navigationTokens.spacing.tabBar`
(lines 38-49), numeric fields. -/
structure TabBarSpacing where
  height : ℚ
  itemPadding : ℚ
  iconMargin : ℚ
  bottomInset : ℚ
  deriving DecidableEq, Repr

/-- Assembly of `navigationTokens.spacing.header`:
`statusBarHeight` is `platform.getStatusBarHeight()` from
src/ui/navigation/theme/platform.js, called with no argument
(`skipAndroid` defaulting to false). -/
def spacingHeader (d : Device) : HeaderSpacing :=
  { height := select d 44 56
    paddingHorizontal := select d 16 16
    statusBarHeight := ThemePlatform.getStatusBarHeight d false
    elevation := select d 0 4 }

/-- Assembly of `navigationTokens.spacing.tabBar`: `height` is
`platform.getTabBarHeight()` from src/ui/navigation/theme/platform.js. -/
def spacingTabBar (d : Device) : TabBarSpacing :=
  { height := ThemePlatform.getTabBarHeight d
    itemPadding := select d 4 8
    iconMargin := select d 4 0
    bottomInset := ThemePlatform.getBottomSpace d }

end Tokens

namespace VisualProperties

/-- The `size` argument of `getCornerRadius`:
src/ui/platform/visualProperties.js treats `size.width || 0` and
`size.height || 0`, which on rational numbers is the identity. -/
structure SizeSpec where
  width : ℚ
  height : ℚ
  deriving DecidableEq, Repr

/-- The `variant` argument of `getCornerRadius`; `unrecognized` stands
for any string other than the four named ones. -/
inductive Variant where
  | small
  | standard
  | large
  | pill
  | unrecognized
  deriving DecidableEq, Repr

/-- src/ui/platform/visualProperties.js, `getCornerRadius` fallback map
(lines 21-30): `fallbackMap[variant] || 8`. -/
def fallbackRadius (variant : Variant) : ℚ :=
  match variant with
  | Variant.small => 4
  | Variant.standard => 8
  | Variant.large => 12
  | Variant.pill => 20
  | Variant.unrecognized => 8

/-- src/ui/platform/visualProperties.js, `getCornerRadius` switch
(lines 37-54): (baseRadius, scaleFactor) per variant; the default case
covers `standard` and any unrecognized variant.  (`pill` never reaches
this table: it returns early.) -/
def variantParams (variant : Variant) : ℚ × ℚ :=
  match variant with
  | Variant.small => (4, 0.08)
  | Variant.large => (16, 0.12)
  | _ => (10, 0.1)

/-- src/ui/platform/visualProperties.js, `getCornerRadius` platform
adjustment (lines 56-66).  The iOS branch tests
`platformDetection.isIPhone12OrNewer` WITHOUT calling it: the exported
function object is always truthy, so every iOS device takes the 1.2
branch regardless of `isIPhone12OrNewer()`. -/
def adjustedScaleFactor (d : Device) (scaleFactor : ℚ) : ℚ :=
  if d.os = OS.ios then scaleFactor * 1.2
  else if d.os = OS.android then scaleFactor * 0.75
  else scaleFactor

/-- src/ui/platform/visualProperties.js, `getCornerRadius` (lines
17-77).  `pill` returns half the smaller dimension immediately; other
variants compute
`baseRadius + log10(max(100, baseSize)) * baseSize * scaleFactor * 0.05`
clamped to `[baseRadius/2, baseSize * 0.25]`. -/
noncomputable def getCornerRadius (d : Device) (size : SizeSpec) (variant : Variant) : ℝ :=
  let baseSize : ℚ := min size.width size.height
  if baseSize = 0 then ((fallbackRadius variant : ℚ) : ℝ)
  else
    match variant with
    | Variant.pill => (baseSize : ℝ) / 2
    | v =>
      let baseRadius : ℚ := (variantParams v).1
      let scaleFactor : ℚ := adjustedScaleFactor d (variantParams v).2
      let computedRadius : ℝ :=
        (baseRadius : ℝ) +
          Real.logb 10 (max 100 (baseSize : ℝ)) * (baseSize : ℝ) * (scaleFactor : ℝ) * 0.05
      max ((baseRadius : ℝ) / 2) (min computedRadius ((baseSize : ℝ) * 0.25))

/-- src/ui/platform/visualProperties.js, the shadow record built by
`getShadowParams`.  `shadowRadius` is real-valued
(`Math.pow(elevation, 0.7)`); `elevation` is the optional
`androidElevation` field (`undefined` modelled as `none`). -/
structure ShadowParams where
  shadowColor : String
  shadowOffsetWidth : ℚ
  shadowOffsetHeight : ℚ
  shadowOpacity : ℚ
  shadowRadius : ℝ
  elevation : Option ℚ

/-- src/ui/platform/visualProperties.js, line 90: elevation normalised
to the 0-24 scale. -/
def clampElevation (e : ℚ) : ℚ :=
  max 0 (min 24 e)

/-- src/ui/platform/visualProperties.js, `getShadowParams` (lines
88-132): the base all-zero shadow carries `elevation` only on Android;
zero clamped elevation returns it unchanged; on iOS with positive
clamped elevation the physically-based parameters replace it (and the
record built on lines 123-128 has no `elevation` key). -/
noncomputable def getShadowParams (os : OS) (elevation : ℚ) : ShadowParams :=
  let n := clampElevation elevation
  let base : ShadowParams :=
    { shadowColor := "#000"
      shadowOffsetWidth := 0
      shadowOffsetHeight := 0
      shadowOpacity := 0
      shadowRadius := 0
      elevation := if os = OS.android then some n else none }
  if n = 0 then base
  else if os = OS.ios then
    { shadowColor := "#000"
      shadowOffsetWidth := 0
      shadowOffsetHeight := n * min (n / 8) 1
      shadowOpacity := 0.18 - n / 100
      shadowRadius := ((n : ℝ) ^ (0.7 : ℝ)) * 0.8
      elevation := none }
  else base

namespace Typography

/-- JavaScript string comparison (`<` on strings): lexicographic on
UTF-16 code units.  The weight tokens compared here are ASCII digit
strings, for which code units coincide with code points. -/
def jsStrLt : List Char → List Char → Bool
  | [], [] => false
  | [], _ :: _ => true
  | _ :: _, [] => false
  | a :: as, b :: bs =>
    if a.val < b.val then true
    else if b.val < a.val then false
    else jsStrLt as bs

/-- JavaScript `a >= b` on strings: the negation of `a < b`. -/
def jsStrGe (a b : String) : Bool :=
  !(jsStrLt a.data b.data)

/-- JavaScript `Math.round`: round half toward positive infinity. -/
def jsRound (q : ℚ) : ℤ :=
  ⌊q + 1 / 2⌋

/-- src/ui/platform/visualProperties.js, `weightMap` (lines 146-152):
the symbolic weight tokens and their string values. -/
def weightMap (weight : String) : Option String :=
  if weight = "normal" then some "400"
  else if weight = "regular" then some "400"
  else if weight = "medium" then some "500"
  else if weight = "semibold" then some "600"
  else if weight = "bold" then some "700"
  else none

/-- src/ui/platform/visualProperties.js, line 155:
`weightMap[weight] || weight || '400'` — an unrecognized weight passes
through unchanged, and an empty (falsy) weight becomes `'400'`. -/
def numericWeight (weight : String) : String :=
  match weightMap weight with
  | some w => w
  | none => if weight = "" then "400" else weight

/-- The record returned by `getOpticalTypography`
(src/ui/platform/visualProperties.js lines 195-206):
`lineHeight` is `Math.round`ed, `fontFamily` is `undefined` (none)
except on Android. -/
structure OpticalTypography where
  fontSize : ℚ
  fontWeight : String
  letterSpacing : ℚ
  lineHeight : ℤ
  fontFamily : Option String
  deriving DecidableEq, Repr

/-- src/ui/platform/visualProperties.js, `getOpticalTypography` (lines
144-207): base tracking by size band, +0.1 when the weight token
compares at least `'600'` as a JavaScript string, line height by the
same bands rounded to nearest integer. -/
def getOpticalTypography (os : OS) (fontSize : ℚ) (weight : String) : OpticalTypography :=
  let w := numericWeight weight
  let baseTracking : ℚ :=
    if fontSize < 14 then 0.5
    else if fontSize < 20 then 0.2
    else if fontSize < 34 then 0
    else -0.5
  let tracking : ℚ := if jsStrGe w "600" then baseTracking + 0.1 else baseTracking
  let lineHeightRaw : ℚ :=
    if fontSize < 14 then fontSize * 1.3
    else if fontSize < 20 then fontSize * 1.25
    else if fontSize < 34 then fontSize * 1.2
    else fontSize * 1.1
  { fontSize := fontSize
    fontWeight := w
    letterSpacing := tracking
    lineHeight := jsRound lineHeightRaw
    fontFamily := if os = OS.android then some "Roboto" else none }

end Typography

namespace Blur

/-- src/ui/platform/visualProperties.js, `intensityMap` (lines 219-224)
with the default to `regular` for an unrecognized level (line 227). -/
def baseIntensity (intensity : String) : ℚ :=
  if intensity = "subtle" then 10
  else if intensity = "light" then 25
  else if intensity = "regular" then 50
  else if intensity = "heavy" then 80
  else 50

/-- src/ui/platform/visualProperties.js, `getBlurIntensity` (lines
217-235): the base intensity scaled by `getMaxBlurIntensity() / 100`
and rounded. -/
def getBlurIntensity (d : Device) (intensity : String) : ℤ :=
  Typography.jsRound (baseIntensity intensity * (Detection.getMaxBlurIntensity d / 100))

end Blur

namespace Backdrop

/-- A character matched by the `[a-f\d]` class with the `i` flag of the
hex regexes in src/ui/platform/visualProperties.js lines 252-254. -/
def isHexChar (c : Char) : Bool :=
  (decide ('0' ≤ c) && decide (c ≤ '9')) ||
  (decide ('a' ≤ c) && decide (c ≤ 'f')) ||
  (decide ('A' ≤ c) && decide (c ≤ 'F'))

/-- Numeric value of a hex digit as `parseInt(_, 16)` reads it. -/
def hexVal (c : Char) : ℕ :=
  if decide ('0' ≤ c) && decide (c ≤ '9') then c.toNat - 48
  else if decide ('a' ≤ c) && decide (c ≤ 'f') then c.toNat - 87
  else if decide ('A' ≤ c) && decide (c ≤ 'F') then c.toNat - 55
  else 0

/-- The shorthand expansion on line 253:
`hex.replace(/^#?([a-f\d])([a-f\d])([a-f\d])$/i, (m,r,g,b) => r+r+g+g+b+b)`.
The regex is anchored at both ends, so it fires only on an optional `#`
followed by exactly three hex digits, and the replacement drops the `#`. -/
def expandShorthand (s : List Char) : List Char :=
  match s with
  | ['#', a, b, c] =>
    if isHexChar a && isHexChar b && isHexChar c then [a, a, b, b, c, c] else s
  | [a, b, c] =>
    if isHexChar a && isHexChar b && isHexChar c then [a, a, b, b, c, c] else s
  | _ => s

/-- The full-form parse on lines 254-260:
`/^#?([a-f\d]{2})([a-f\d]{2})([a-f\d]{2})$/i.exec(fullHex)` converted
into the `{r, g, b}` triple, `none` when the regex does not match. -/
def parseHex6 (s : List Char) : Option (ℕ × ℕ × ℕ) :=
  let t := match s with
    | '#' :: rest => rest
    | _ => s
  match t with
  | [r1, r2, g1, g2, b1, b2] =>
    if isHexChar r1 && isHexChar r2 && isHexChar g1 && isHexChar g2 &&
        isHexChar b1 && isHexChar b2 then
      some (16 * hexVal r1 + hexVal r2, 16 * hexVal g1 + hexVal g2,
        16 * hexVal b1 + hexVal b2)
    else none
  | _ => none

/-- src/ui/platform/visualProperties.js, `hexToRgb` (lines 251-261):
expand the shorthand, parse, and fall back to white on failure. -/
def hexToRgb (hex : String) : ℕ × ℕ × ℕ :=
  (parseHex6 (expandShorthand hex.data)).getD (255, 255, 255)

/-- The rgba value built by `getBackdropColor` (line 267): the parsed
components and the clamped opacity embedded in the returned string. -/
structure BackdropColor where
  r : ℕ
  g : ℕ
  b : ℕ
  a : ℚ
  deriving DecidableEq, Repr

/-- src/ui/platform/visualProperties.js, `getBackdropColor` (lines
246-268): clamp the opacity to [0,1], parse the base color, return the
rgba value. -/
def getBackdropColor (baseColor : String) (opacity : ℚ) : BackdropColor :=
  let clampedOpacity := max 0 (min 1 opacity)
  let rgb := hexToRgb baseColor
  { r := rgb.1, g := rgb.2.1, b := rgb.2.2, a := clampedOpacity }

end Backdrop

end VisualProperties

/-! ## Theorems -/

/-- C4: `hasDynamicIsland` returns true if and only if the shorter
logical window dimension is exactly 393 or exactly 430 and
`hasNotchOrDynamicIsland` is true; any other shorter-side width — for
example 400 on a primary-OS phone that satisfies the general notch
condition — returns false. -/
theorem C4_hasDynamicIsland_whitelist :
    (∀ d : Device, Detection.hasDynamicIsland d = true ↔
      ((min d.width d.height = 393 ∨ min d.width d.height = 430) ∧
        Detection.hasNotchOrDynamicIsland d = true)) ∧
    Detection.hasDynamicIsland ⟨400, 870, 3, OS.ios, false, none⟩ = false ∧
    Detection.hasNotchOrDynamicIsland ⟨400, 870, 3, OS.ios, false, none⟩ = true := by
  refine ⟨fun d => ?_, ?_, ?_⟩
  · by_cases h1 : d.os = OS.ios <;> by_cases h2 : d.isPad <;>
      simp [Detection.hasDynamicIsland, Detection.hasNotchOrDynamicIsland, h1, h2]
  · norm_num [Detection.hasDynamicIsland, Detection.hasNotchOrDynamicIsland, min_def]
  · norm_num [Detection.hasNotchOrDynamicIsland]

/-- C2 counterexample: a primary-OS phone captured in landscape (window
844 wide, 390 tall) has longer dimension at least 812 and is not a
tablet, yet `hasNotchOrDynamicIsland` returns false, contradicting the
claim that the result is true whenever the longer window dimension is
at least 812 on a non-tablet primary-OS device. -/
theorem C2_counterexample_landscape :
    Detection.hasNotchOrDynamicIsland ⟨844, 390, 3, OS.ios, false, none⟩ = false ∧
    (Device.mk 844 390 3 OS.ios false none).os = OS.ios ∧
    max (Device.mk 844 390 3 OS.ios false none).width
      (Device.mk 844 390 3 OS.ios false none).height ≥ 812 ∧
    (Device.mk 844 390 3 OS.ios false none).isPad = false := by
  refine ⟨?_, rfl, ?_, rfl⟩
  · norm_num [Detection.hasNotchOrDynamicIsland]
  · norm_num [max_def]

/-- C2 amended: on the primary OS, `hasNotchOrDynamicIsland` returns
true if and only if the window HEIGHT is at least 812 and the device is
not an iPad — a landscape capture with width at least 812 but height
below 812 reports false — and on any other OS it is always false. -/
theorem C2_notch_uses_height_only :
    (∀ d : Device, d.os = OS.ios →
      (Detection.hasNotchOrDynamicIsland d = true ↔ (d.height ≥ 812 ∧ d.isPad = false))) ∧
    (∀ d : Device, d.os ≠ OS.ios → Detection.hasNotchOrDynamicIsland d = false) := by
  constructor
  · intro d h
    simp [Detection.hasNotchOrDynamicIsland, h]
  · intro d h
    simp [Detection.hasNotchOrDynamicIsland, h]

/-- C2 witness: the amended characterization applied to a portrait
notched phone (true) and to a secondary-OS device (false). -/
theorem C2_notch_uses_height_only_witness :
    Detection.hasNotchOrDynamicIsland ⟨390, 844, 3, OS.ios, false, none⟩ = true ∧
    Detection.hasNotchOrDynamicIsland ⟨390, 844, 3, OS.android, false, none⟩ = false :=
  ⟨(C2_notch_uses_height_only.1 ⟨390, 844, 3, OS.ios, false, none⟩ rfl).mpr
      (by norm_num),
    C2_notch_uses_height_only.2 ⟨390, 844, 3, OS.android, false, none⟩ (by simp)⟩

/-- C3 counterexample: on a portrait notched primary-OS phone the
detection module's status bar height is 47, but the accessor consumed
by the token tree (theme/platform.js via tokens.js) yields 44, so the
claim that every status-bar-height accessor follows the 47/20 table is
false. -/
theorem C3_counterexample_token_statusbar :
    Detection.getStatusBarHeight ⟨390, 844, 3, OS.ios, false, none⟩ = 47 ∧
    (Tokens.spacingHeader ⟨390, 844, 3, OS.ios, false, none⟩).statusBarHeight = 44 := by
  constructor
  · norm_num [Detection.getStatusBarHeight, Detection.hasNotchOrDynamicIsland]
  · norm_num [Tokens.spacingHeader, ThemePlatform.getStatusBarHeight,
      ThemePlatform.hasNotch, ThemePlatform.isIPhoneXOrNewer]

/-- C3 amended: the detection module's `getStatusBarHeight` follows the
fixed table (primary OS: 47 with a notch, else 20; primary-OS tablet:
24; any other OS: 24), but the status-bar accessor consumed by the
token tree's `spacing.header.statusBarHeight` (theme/platform.js)
instead returns 44 with a notch and 20 without on the primary OS, with
no tablet override, and on any other OS returns the runtime-reported
status bar height (defaulting to 0), not a fixed table value. -/
theorem C3_statusbar_tables :
    (∀ d : Device, d.os = OS.ios → d.isPad = true →
      Detection.getStatusBarHeight d = 24) ∧
    (∀ d : Device, d.os = OS.ios → d.isPad = false →
      Detection.getStatusBarHeight d =
        if Detection.hasNotchOrDynamicIsland d then 47 else 20) ∧
    (∀ d : Device, d.os ≠ OS.ios → Detection.getStatusBarHeight d = 24) ∧
    (∀ d : Device, d.os = OS.ios →
      (Tokens.spacingHeader d).statusBarHeight =
        if ThemePlatform.hasNotch d then 44 else 20) ∧
    (∀ d : Device, d.os ≠ OS.ios →
      (Tokens.spacingHeader d).statusBarHeight = d.statusBarCurrentHeight.getD 0) := by
  refine ⟨fun d h1 h2 => ?_, fun d h1 h2 => ?_, fun d h => ?_, fun d h => ?_, fun d h => ?_⟩
  · simp [Detection.getStatusBarHeight, h1, h2]
  · simp [Detection.getStatusBarHeight, h1, h2]
  · simp [Detection.getStatusBarHeight, h]
  · simp [Tokens.spacingHeader, ThemePlatform.getStatusBarHeight, h]
  · simp [Tokens.spacingHeader, ThemePlatform.getStatusBarHeight, h]

/-- C3 witness: the table applied to a primary-OS tablet, a notched
phone, a secondary-OS device, and the token-tree accessor on a notched
phone and a secondary-OS device. -/
theorem C3_statusbar_tables_witness :
    Detection.getStatusBarHeight ⟨834, 1194, 2, OS.ios, true, none⟩ = 24 ∧
    Detection.getStatusBarHeight ⟨390, 844, 3, OS.ios, false, none⟩ =
      (if Detection.hasNotchOrDynamicIsland ⟨390, 844, 3, OS.ios, false, none⟩
        then 47 else 20) ∧
    Detection.getStatusBarHeight ⟨400, 700, 2, OS.android, false, some 24⟩ = 24 ∧
    (Tokens.spacingHeader ⟨390, 844, 3, OS.ios, false, none⟩).statusBarHeight =
      (if ThemePlatform.hasNotch ⟨390, 844, 3, OS.ios, false, none⟩ then 44 else 20) ∧
    (Tokens.spacingHeader ⟨400, 700, 2, OS.android, false, some 24⟩).statusBarHeight =
      (Option.some (24 : ℚ)).getD 0 :=
  ⟨C3_statusbar_tables.1 ⟨834, 1194, 2, OS.ios, true, none⟩ rfl rfl,
    C3_statusbar_tables.2.1 ⟨390, 844, 3, OS.ios, false, none⟩ rfl rfl,
    C3_statusbar_tables.2.2.1 ⟨400, 700, 2, OS.android, false, some 24⟩ (by simp),
    C3_statusbar_tables.2.2.2.1 ⟨390, 844, 3, OS.ios, false, none⟩ rfl,
    C3_statusbar_tables.2.2.2.2 ⟨400, 700, 2, OS.android, false, some 24⟩ (by simp)⟩

/-- C10: the tab bar height token equals the per-OS standard tab bar
height (49 on the primary OS, 56 otherwise) plus the bottom space (34
when the device has a home indicator, else 0), so
`spacing.tabBar.height` already includes the home-indicator inset. -/
theorem C10_tabBar_height_includes_inset :
    ∀ d : Device,
      (Tokens.spacingTabBar d).height =
        (if d.os = OS.ios then 49 else 56) +
          (if ThemePlatform.hasHomeIndicator d then 34 else 0) := by
  intro d
  simp [Tokens.spacingTabBar, ThemePlatform.getTabBarHeight, ThemePlatform.getBottomSpace]

lemma clampElevation_nonneg (e : ℚ) : 0 ≤ VisualProperties.clampElevation e :=
  le_max_left 0 _

lemma clampElevation_le (e : ℚ) : VisualProperties.clampElevation e ≤ 24 :=
  max_le (by norm_num) (min_le_left 24 e)

lemma clampElevation_of_mem (e : ℚ) (h0 : 0 ≤ e) (h24 : e ≤ 24) :
    VisualProperties.clampElevation e = e := by
  unfold VisualProperties.clampElevation
  rw [min_eq_right h24, max_eq_right h0]

lemma clampElevation_idem (e : ℚ) :
    VisualProperties.clampElevation (VisualProperties.clampElevation e) =
      VisualProperties.clampElevation e :=
  clampElevation_of_mem _ (clampElevation_nonneg e) (clampElevation_le e)

/-- C5: on the primary OS, for every elevation in (0,24] (on which the
clamp is the identity), `getShadowParams` returns
shadowRadius = e^0.7 * 0.8, shadowOffset = {width 0, height
e * min(e/8, 1)}, and shadowOpacity = 0.18 - e/100, which is negative
for e > 18 with no clamping to 0. -/
theorem C5_ios_shadow_formulas :
    (∀ e : ℚ, 0 < e → e ≤ 24 →
      VisualProperties.getShadowParams OS.ios e =
        { shadowColor := "#000"
          shadowOffsetWidth := 0
          shadowOffsetHeight := e * min (e / 8) 1
          shadowOpacity := 0.18 - e / 100
          shadowRadius := ((e : ℝ) ^ (0.7 : ℝ)) * 0.8
          elevation := none }) ∧
    (∀ e : ℚ, 18 < e → e ≤ 24 →
      (VisualProperties.getShadowParams OS.ios e).shadowOpacity < 0) := by
  have key : ∀ e : ℚ, 0 < e → e ≤ 24 →
      VisualProperties.getShadowParams OS.ios e =
        { shadowColor := "#000"
          shadowOffsetWidth := 0
          shadowOffsetHeight := e * min (e / 8) 1
          shadowOpacity := 0.18 - e / 100
          shadowRadius := ((e : ℝ) ^ (0.7 : ℝ)) * 0.8
          elevation := none } := by
    intro e h0 h24
    have hc : VisualProperties.clampElevation e = e :=
      clampElevation_of_mem e h0.le h24
    simp [VisualProperties.getShadowParams, hc, h0.ne.symm]
  refine ⟨key, fun e h18 h24 => ?_⟩
  have h0 : (0 : ℚ) < e := lt_trans (by norm_num) h18
  rw [key e h0 h24]
  show (0.18 : ℚ) - e / 100 < 0
  linarith

/-- C5 witness: the formulas instantiated at elevation 8, and the
negative opacity at elevation 20. -/
theorem C5_ios_shadow_formulas_witness :
    VisualProperties.getShadowParams OS.ios 8 =
      { shadowColor := "#000"
        shadowOffsetWidth := 0
        shadowOffsetHeight := 8 * min ((8 : ℚ) / 8) 1
        shadowOpacity := 0.18 - 8 / 100
        shadowRadius := (((8 : ℚ) : ℝ) ^ (0.7 : ℝ)) * 0.8
        elevation := none } ∧
    (VisualProperties.getShadowParams OS.ios 20).shadowOpacity < 0 :=
  ⟨C5_ios_shadow_formulas.1 8 (by norm_num) (by norm_num),
    C5_ios_shadow_formulas.2 20 (by norm_num) (by norm_num)⟩

/-- C6: `getShadowParams` clamps its elevation argument to [0,24] — for
every elevation, the result equals the result at the clamped value, so
the value at -5 agrees with the value at 0 and the value at 30 with the
value at 24 — and at elevation 0 every OS gets the all-zero shadow:
black color, offset {0,0}, opacity 0, radius 0, with the
androidElevation field 0 on the secondary OS and absent otherwise. -/
theorem C6_clamp_and_zero_shadow :
    (∀ (os : OS) (e : ℚ),
      VisualProperties.getShadowParams os e =
        VisualProperties.getShadowParams os (VisualProperties.clampElevation e)) ∧
    (∀ os : OS,
      VisualProperties.getShadowParams os (-5) = VisualProperties.getShadowParams os 0) ∧
    (∀ os : OS,
      VisualProperties.getShadowParams os 30 = VisualProperties.getShadowParams os 24) ∧
    (∀ os : OS,
      VisualProperties.getShadowParams os 0 =
        { shadowColor := "#000"
          shadowOffsetWidth := 0
          shadowOffsetHeight := 0
          shadowOpacity := 0
          shadowRadius := 0
          elevation := if os = OS.android then some 0 else none }) := by
  have key : ∀ (os : OS) (e : ℚ),
      VisualProperties.getShadowParams os e =
        VisualProperties.getShadowParams os (VisualProperties.clampElevation e) := by
    intro os e
    simp only [VisualProperties.getShadowParams, clampElevation_idem]
  have hm5 : VisualProperties.clampElevation (-5) = VisualProperties.clampElevation 0 := by
    unfold VisualProperties.clampElevation
    norm_num [min_def, max_def]
  have h30 : VisualProperties.clampElevation 30 = VisualProperties.clampElevation 24 := by
    unfold VisualProperties.clampElevation
    norm_num [min_def, max_def]
  refine ⟨key, fun os => ?_, fun os => ?_, fun os => ?_⟩
  · rw [key os (-5), key os 0, hm5]
  · rw [key os 30, key os 24, h30]
  · have hc : VisualProperties.clampElevation 0 = 0 := clampElevation_of_mem 0 le_rfl (by norm_num)
    simp [VisualProperties.getShadowParams, hc]

/-- C7: for the pill variant, `getCornerRadius` returns half the
smaller dimension with no platform adjustment and no clamping whenever
the smaller side is non-zero — in particular exactly 50 for a 200x100
size on every device — and the fixed fallback 20 whenever the smaller
side is 0, as for a 0x0 size. -/
theorem C7_pill_radius :
    (∀ (d : Device) (s : VisualProperties.SizeSpec), min s.width s.height ≠ 0 →
      VisualProperties.getCornerRadius d s VisualProperties.Variant.pill =
        ((min s.width s.height : ℚ) : ℝ) / 2) ∧
    (∀ (d : Device) (s : VisualProperties.SizeSpec), min s.width s.height = 0 →
      VisualProperties.getCornerRadius d s VisualProperties.Variant.pill = 20) ∧
    (∀ d : Device,
      VisualProperties.getCornerRadius d ⟨200, 100⟩ VisualProperties.Variant.pill = 50) := by
  have hnz : ∀ (d : Device) (s : VisualProperties.SizeSpec), min s.width s.height ≠ 0 →
      VisualProperties.getCornerRadius d s VisualProperties.Variant.pill =
        ((min s.width s.height : ℚ) : ℝ) / 2 := by
    intro d s h
    simp [VisualProperties.getCornerRadius, h]
  refine ⟨hnz, fun d s h => ?_, fun d => ?_⟩
  · simp [VisualProperties.getCornerRadius, h, VisualProperties.fallbackRadius]
  · rw [hnz d ⟨200, 100⟩ (by norm_num [min_def])]
    norm_num [min_def]

/-- C7 witness: the non-zero rule applied at size 200x100 and the
fallback rule at size 0x0 on a concrete device. -/
theorem C7_pill_radius_witness :
    VisualProperties.getCornerRadius ⟨390, 844, 3, OS.ios, false, none⟩ ⟨200, 100⟩
        VisualProperties.Variant.pill =
      ((min (200 : ℚ) 100 : ℚ) : ℝ) / 2 ∧
    VisualProperties.getCornerRadius ⟨390, 844, 3, OS.ios, false, none⟩ ⟨0, 0⟩
        VisualProperties.Variant.pill = 20 :=
  ⟨C7_pill_radius.1 ⟨390, 844, 3, OS.ios, false, none⟩ ⟨200, 100⟩ (by norm_num [min_def]),
    C7_pill_radius.2.1 ⟨390, 844, 3, OS.ios, false, none⟩ ⟨0, 0⟩ (by norm_num [min_def])⟩

lemma logb_ten_hundred : Real.logb 10 100 = 2 := by
  rw [show (100 : ℝ) = 10 ^ (2 : ℕ) by norm_num, Real.logb_pow,
    Real.logb_self_eq_one (by norm_num)]
  norm_num

/-- C1: the claim says the 1.2 capability multiplier applies only to
primary-OS modern-form-factor (iPhone-12-or-newer) devices.  The code
tests the exported function object `isIPhone12OrNewer` without calling
it, so the multiplier applies on EVERY primary-OS device: a 320x568
device is not iPhone-12-or-newer, yet its standard corner radius for a
200x100 size is 10 + log10(100) * 100 * (0.1 * 1.2) * 0.05 = 11.2
(with the 1.2 multiplier), not the unmultiplied 11. -/
theorem C1_modern_form_factor_multiplier_bug :
    Detection.isIPhone12OrNewer ⟨320, 568, 2, OS.ios, false, none⟩ = false ∧
    VisualProperties.adjustedScaleFactor ⟨320, 568, 2, OS.ios, false, none⟩ 0.1 = 0.12 ∧
    VisualProperties.getCornerRadius ⟨320, 568, 2, OS.ios, false, none⟩ ⟨200, 100⟩
      VisualProperties.Variant.standard = 11.2 ∧
    (11.2 : ℝ) ≠ 10 + Real.logb 10 100 * 100 * 0.1 * 0.05 := by
  refine ⟨?_, ?_, ?_, ?_⟩
  · norm_num [Detection.isIPhone12OrNewer, min_def]
  · norm_num [VisualProperties.adjustedScaleFactor]
  · simp only [VisualProperties.getCornerRadius, VisualProperties.variantParams,
      VisualProperties.adjustedScaleFactor]
    norm_num [min_def, max_def, logb_ten_hundred]
  · rw [logb_ten_hundred]
    norm_num

/-- C8: for every fontSize strictly below 14, the bold optical
typography has letterSpacing exactly 0.6: the 0.5 small-size base
tracking plus the 0.1 bonus, since the mapped weight token is the
string 700 which compares at least the string 600 under JavaScript
string comparison. -/
theorem C8_bold_small_letterSpacing :
    ∀ (os : OS) (fontSize : ℚ), fontSize < 14 →
      (VisualProperties.Typography.getOpticalTypography os fontSize "bold").letterSpacing
        = 0.6 := by
  intro os fontSize h
  simp [VisualProperties.Typography.getOpticalTypography,
    VisualProperties.Typography.numericWeight, VisualProperties.Typography.weightMap,
    VisualProperties.Typography.jsStrGe, VisualProperties.Typography.jsStrLt, h]
  norm_num

/-- C8 witness: fontSize 10 with the bold weight on the primary OS. -/
theorem C8_bold_small_letterSpacing_witness :
    (VisualProperties.Typography.getOpticalTypography OS.ios 10 "bold").letterSpacing
      = 0.6 :=
  C8_bold_small_letterSpacing OS.ios 10 (by norm_num)

/-- C9: `getBackdropColor` always clamps its opacity argument to [0,1];
the 3-digit shorthand is expanded before parsing, so the input hash-fff
at opacity 0.5 yields components (255,255,255) with alpha 0.5 and the
input hash-bad at opacity 2 yields (187,170,221) with alpha clamped to
1; and any hex string the parser rejects falls back to white
(255,255,255) rather than signaling an error. -/
theorem C9_backdrop_color :
    (∀ (s : String) (o : ℚ),
      (VisualProperties.Backdrop.getBackdropColor s o).a = max 0 (min 1 o)) ∧
    VisualProperties.Backdrop.getBackdropColor "#fff" 0.5 =
      { r := 255, g := 255, b := 255, a := 0.5 } ∧
    VisualProperties.Backdrop.getBackdropColor "#bad" 2 =
      { r := 187, g := 170, b := 221, a := 1 } ∧
    (∀ (s : String) (o : ℚ),
      VisualProperties.Backdrop.parseHex6 (VisualProperties.Backdrop.expandShorthand s.data)
          = none →
        (VisualProperties.Backdrop.getBackdropColor s o).r = 255 ∧
        (VisualProperties.Backdrop.getBackdropColor s o).g = 255 ∧
        (VisualProperties.Backdrop.getBackdropColor s o).b = 255) := by
  refine ⟨fun s o => ?_, ?_, ?_, fun s o h => ?_⟩
  · simp [VisualProperties.Backdrop.getBackdropColor]
  · norm_num [VisualProperties.Backdrop.getBackdropColor,
      VisualProperties.Backdrop.hexToRgb, min_def, max_def]
    decide
  · norm_num [VisualProperties.Backdrop.getBackdropColor,
      VisualProperties.Backdrop.hexToRgb, min_def, max_def]
    decide
  · simp [VisualProperties.Backdrop.getBackdropColor,
      VisualProperties.Backdrop.hexToRgb, h]

/-- C9 witness: the fallback-to-white rule applied to a string with no
valid hex form. -/
theorem C9_backdrop_color_witness :
    (VisualProperties.Backdrop.getBackdropColor "xyz" 0.5).r = 255 ∧
    (VisualProperties.Backdrop.getBackdropColor "xyz" 0.5).g = 255 ∧
    (VisualProperties.Backdrop.getBackdropColor "xyz" 0.5).b = 255 :=
  C9_backdrop_color.2.2.2 "xyz" 0.5 (by decide)
